import Mathlib

/-!
Verification of the CityOps (CivicPulse) backend decision procedures:
the keyword classifier (`run_classification_agent`), the department
router (`run_routing_agent`), the chat endpoint with its deterministic
fallback (`chat_endpoint` in `main.py`), and the vision agent
(`run_vision_agent`).  Strings are modelled as `List Char`; Python
`str.lower` is modelled by ASCII `Char.toLower`, `str.strip` by
dropping whitespace on both ends, and `in` (substring test) by
`hasSub`.
-/

namespace CityOps

/-- The character list of a string literal (Python strings are modelled
as `List Char`). -/
def chars (s : String) : List Char := s.data

/-- Python `str.lower`, per character (ASCII). -/
def lowerChar (c : Char) : Char := c.toLower

/-- Whitespace test used by Python `str.strip`. -/
def isWs (c : Char) : Bool := c.isWhitespace

/-- Python `str.strip`: remove leading and trailing whitespace. -/
def strip (s : List Char) : List Char :=
  ((s.dropWhile isWs).reverse.dropWhile isWs).reverse

/-- `beginsWith p s` is true iff `p` is a prefix of `s`
(Python `s.startswith(p)`). -/
def beginsWith : List Char → List Char → Bool
  | [], _ => true
  | _ :: _, [] => false
  | a :: as, b :: bs => a == b && beginsWith as bs

/-- `hasSub p s` is true iff `p` occurs as a contiguous substring of `s`
(Python `p in s`). -/
def hasSub (p : List Char) : List Char → Bool
  | [] => beginsWith p []
  | c :: rest => beginsWith p (c :: rest) || hasSub p rest


/-- The ordered keyword → category table of `run_classification_agent`
(`agents.py`, lines 19–43); Python dicts preserve insertion order, so
iteration visits the pairs in this declaration order. -/
def classification_map : List (List Char × List Char) :=
  [(chars "garbage", chars "Garbage"),
   (chars "trash", chars "Garbage"),
   (chars "waste", chars "Garbage"),
   (chars "dustbin", chars "Garbage"),
   (chars "road", chars "Road"),
   (chars "pothole", chars "Road"),
   (chars "street", chars "Road"),
   (chars "asphalt", chars "Road"),
   (chars "water", chars "Water"),
   (chars "leak", chars "Water"),
   (chars "pipe", chars "Water"),
   (chars "drainage", chars "Water"),
   (chars "streetlight", chars "Streetlight"),
   (chars "light", chars "Streetlight"),
   (chars "lamp", chars "Streetlight"),
   (chars "dark", chars "Streetlight")]

/-- The list of standard category names checked by the direct-match
branch of `run_classification_agent` (`agents.py`, line 54). -/
def standard_categories : List (List Char) :=
  [chars "Garbage", chars "Road", chars "Water", chars "Streetlight"]

/-- `run_classification_agent` (`agents.py`, lines 9–59): empty input
returns `"General"`; otherwise the input is lower-cased and stripped,
the first keyword occurring as a substring decides the category, then
an exact (case-insensitive) category-name match is tried, and finally
`"General"` is returned. -/
def run_classification_agent (issue_type : List Char) : List Char :=
  if issue_type = [] then chars "General"
  else
    let key := strip (issue_type.map lowerChar)
    match classification_map.find? (fun kc => hasSub kc.1 key) with
    | some kc => kc.2
    | none =>
      match standard_categories.find? (fun cat => cat.map lowerChar == key) with
      | some cat => cat
      | none => chars "General"

/-- The category → department table of `run_routing_agent`
(`agents.py`, lines 69–75). -/
def routing_map : List (List Char × List Char) :=
  [(chars "Garbage", chars "Sanitation Dept."),
   (chars "Road", chars "Public Works Dept."),
   (chars "Water", chars "Water Board"),
   (chars "Streetlight", chars "Electricity Board"),
   (chars "General", chars "Municipal Corporation")]

/-- `run_routing_agent` (`agents.py`, lines 62–77): dictionary lookup
with default `"City Helpdesk"` (Python `dict.get`). -/
def run_routing_agent (issue_type : List Char) : List Char :=
  match routing_map.find? (fun kv => kv.1 == issue_type) with
  | some kv => kv.2
  | none => chars "City Helpdesk"

/-- The agentic flow of `create_complaint` (`main.py`, lines 253–258):
classification followed by routing, returning the pair
(normalized category, assigned department). -/
def classify_and_route (raw : List Char) : List Char × List Char :=
  let c := run_classification_agent raw
  (c, run_routing_agent c)


/-- Fuel-driven scanner behind `removeAll`; every step consumes at
least one character of `s`, so any `fuel ≥ s.length` computes the
replacement exactly. -/
def removeAllAux (pat : List Char) : Nat → List Char → List Char
  | _, [] => []
  | 0, s => s
  | fuel + 1, c :: rest =>
    if beginsWith pat (c :: rest) = true ∧ 0 < pat.length then
      removeAllAux pat fuel (rest.drop (pat.length - 1))
    else c :: removeAllAux pat fuel rest

/-- `removeAll pat s`: Python `s.replace(pat, "")` — delete every
(left-to-right, non-overlapping) occurrence of `pat` in `s`. -/
def removeAll (pat s : List Char) : List Char :=
  removeAllAux pat s.length s

/-- The response clean-up of the chat endpoint (`main.py`, line 182):
`response_text.replace("```json", "").replace("```", "").strip()`. -/
def cleanResponse (text : List Char) : List Char :=
  strip (removeAll (chars "```") (removeAll (chars "```json") text))


/-- The `ExtractedData` Pydantic model (`main.py`, lines 66–69): all
three fields optional, `none` meaning `null`/absent. -/
structure ExtractedData where
  issue_type : Option (List Char)
  description : Option (List Char)
  location_text : Option (List Char)
deriving DecidableEq

/-- The `ChatResponse` Pydantic model (`main.py`, lines 71–73). -/
structure ChatResponse where
  assistantReply : List Char
  extractedData : Option ExtractedData
deriving DecidableEq

/-- The fields the chat endpoint reads out of a successfully parsed
AI JSON payload (`main.py`, lines 185–192): `data.get("assistantReply")`
and the three `data.get("extractedData", {}).get(...)` fields, each
`none` when the key is missing. -/
structure ParsedChat where
  assistantReply : Option (List Char)
  issue_type : Option (List Char)
  description : Option (List Char)
  location_text : Option (List Char)
deriving DecidableEq

/-- The environment of one `/chat` request as the endpoint observes it:
either no AI key is configured (`main.py`, line 172), or the Gemini
call raises (line 201), or it returns `text`, for which `parsed`
records the outcome of `json.loads` on the cleaned text — `none` when
parsing fails (line 194). -/
inductive BackendOutcome where
  | noBackend
  | failure
  | success (text : List Char) (parsed : Option ParsedChat)
deriving DecidableEq

/-- The keyword fallback of the chat endpoint (`main.py`, lines
206–219): lower-case the message and test three/two/three/three
keywords group by group, defaulting to `"General"`. -/
def fallback_issue_type (message : List Char) : List Char :=
  let m := message.map lowerChar
  if hasSub (chars "garbage") m || hasSub (chars "trash") m
      || hasSub (chars "rubbish") m then chars "Garbage"
  else if hasSub (chars "road") m || hasSub (chars "pothole") m then chars "Road"
  else if hasSub (chars "water") m || hasSub (chars "leak") m
      || hasSub (chars "pipe") m then chars "Water"
  else if hasSub (chars "light") m || hasSub (chars "lamp") m
      || hasSub (chars "dark") m then chars "Streetlight"
  else chars "General"

/-- The fallback `ChatResponse` (`main.py`, lines 221–231): templated
reply, extracted data with the fallback category, the verbatim message
as description, and the empty string as location. -/
def fallback_response (message : List Char) : ChatResponse :=
  let it := fallback_issue_type message
  { assistantReply :=
      chars "I've identified this as a '" ++ it
        ++ chars "' issue. I've automatically filled out the form for you with the details.",
    extractedData := some ⟨some it, some message, some []⟩ }

/-- `chat_endpoint` (`main.py`, lines 130–231) as a function of the
message and the backend outcome.  On a successful AI call whose payload
parses, the reply defaults to `"I've noted that."` when absent and the
three extracted fields are passed through; on a parse failure the
cleaned text is the reply and the original message the description; a
missing key or a backend error takes the keyword fallback. -/
def chat_endpoint (message : List Char) (outcome : BackendOutcome) : ChatResponse :=
  match outcome with
  | .success _ (some data) =>
      { assistantReply := data.assistantReply.getD (chars "I've noted that."),
        extractedData := some ⟨data.issue_type, data.description, data.location_text⟩ }
  | .success text none =>
      { assistantReply := cleanResponse text,
        extractedData := some ⟨none, some message, none⟩ }
  | .noBackend => fallback_response message
  | .failure => fallback_response message


/-- The dictionary shape produced by `run_vision_agent` (`agents.py`,
lines 140–149 and 165–173). -/
structure VisionResult where
  is_civic_issue : Bool
  rejection_reason : Option (List Char)
  issue_type : List Char
  severity : Int
  description : List Char
  location_context : List Char
  required_action : List Char
deriving DecidableEq

/-- The environment of one `run_vision_agent` call: the image download
raises (`requests.get` / `raise_for_status`, lines 105–106), the image
fails to decode (`PIL.Image.open`, line 108), the Gemini call raises
(line 153), `json.loads` on the cleaned text raises (line 157), or the
analysis succeeds with the parsed payload `data`. -/
inductive VisionOutcome where
  | fetchError
  | decodeError
  | backendError
  | parseError
  | success (data : VisionResult)
deriving DecidableEq

/-- True on every outcome of `VisionOutcome` other than `success`. -/
def VisionOutcome.isFailure : VisionOutcome → Bool
  | .success _ => false
  | _ => true

/-- The fixed fallback dictionary returned by `run_vision_agent` when
anything in its `try` block raises (`agents.py`, lines 165–173). -/
def visionFallback : VisionResult :=
  { is_civic_issue := false,
    rejection_reason := some (chars "Analysis failed, please try again."),
    issue_type := chars "General",
    severity := 0,
    description := [],
    location_context := [],
    required_action := [] }

/-- `run_vision_agent` (`agents.py`, lines 90–173) as a function of the
`GEMINI_API_KEY` environment value and the call outcome: with no key it
returns `None` (lines 97–100); otherwise every exception in the `try`
block yields the fixed fallback dictionary and a successful analysis
returns the parsed payload. -/
def run_vision_agent (apiKey : Option (List Char)) (outcome : VisionOutcome) :
    Option VisionResult :=
  match apiKey with
  | none => none
  | some _ =>
    match outcome with
    | .success data => some data
    | _ => some visionFallback

/-! ### Lemmas about `beginsWith`, `hasSub` and `strip` -/

theorem beginsWith_iff (p s : List Char) :
    beginsWith p s = true ↔ ∃ t, s = p ++ t := by
  induction p generalizing s with
  | nil => simp [beginsWith]
  | cons a as ih =>
    cases s with
    | nil => simp [beginsWith]
    | cons b bs =>
      simp only [beginsWith, Bool.and_eq_true, beq_iff_eq, ih, List.cons_append,
        List.cons.injEq]
      constructor
      · rintro ⟨rfl, t, rfl⟩
        exact ⟨t, rfl, rfl⟩
      · rintro ⟨t, rfl, rfl⟩
        exact ⟨rfl, t, rfl⟩

theorem hasSub_iff (p s : List Char) :
    hasSub p s = true ↔ ∃ a b, s = a ++ p ++ b := by
  induction s with
  | nil =>
    simp only [hasSub, beginsWith_iff]
    constructor
    · rintro ⟨t, ht⟩
      rcases List.append_eq_nil.mp ht.symm with ⟨rfl, rfl⟩
      exact ⟨[], [], rfl⟩
    · rintro ⟨a, b, h⟩
      rcases List.append_eq_nil.mp h.symm with ⟨h1, rfl⟩
      rcases List.append_eq_nil.mp h1 with ⟨rfl, rfl⟩
      exact ⟨[], rfl⟩
  | cons c rest ih =>
    simp only [hasSub, Bool.or_eq_true, beginsWith_iff, ih]
    constructor
    · rintro (⟨t, ht⟩ | ⟨a, b, h⟩)
      · exact ⟨[], t, by simp [ht]⟩
      · exact ⟨c :: a, b, by simp [h]⟩
    · rintro ⟨a, b, h⟩
      cases a with
      | nil => exact Or.inl ⟨b, by simpa using h⟩
      | cons a0 as =>
        simp only [List.cons_append, List.cons.injEq] at h
        exact Or.inr ⟨as, b, h.2⟩

theorem hasSub_reverse (p s : List Char) :
    hasSub p.reverse s.reverse = hasSub p s := by
  have main : ∀ q t : List Char, hasSub q t = true →
      hasSub q.reverse t.reverse = true := by
    intro q t h
    rcases (hasSub_iff q t).mp h with ⟨a, b, rfl⟩
    exact (hasSub_iff _ _).mpr ⟨b.reverse, a.reverse, by simp⟩
  cases hps : hasSub p s with
  | true => exact main p s hps
  | false =>
    cases hrev : hasSub p.reverse s.reverse with
    | false => rfl
    | true =>
      have h2 := main p.reverse s.reverse hrev
      simp only [List.reverse_reverse] at h2
      simp [hps] at h2

theorem hasSub_dropWhile (p s : List Char) (hp : p ≠ [])
    (hws : ∀ c ∈ p, isWs c = false) :
    hasSub p (s.dropWhile isWs) = hasSub p s := by
  induction s with
  | nil => rfl
  | cons c rest ih =>
    rw [List.dropWhile_cons]
    by_cases hc : isWs c = true
    · rw [if_pos hc, ih]
      have hb : beginsWith p (c :: rest) = false := by
        cases p with
        | nil => exact absurd rfl hp
        | cons p0 ps =>
          have h0 : isWs p0 = false := hws p0 (List.mem_cons_self p0 ps)
          have hne : p0 ≠ c := by
            intro h
            rw [h, hc] at h0
            cases h0
          show ((p0 == c) && beginsWith ps rest) = false
          rw [beq_eq_false_iff_ne.mpr hne, Bool.false_and]
      show hasSub p rest = hasSub p (c :: rest)
      show hasSub p rest = (beginsWith p (c :: rest) || hasSub p rest)
      rw [hb, Bool.false_or]
    · rw [if_neg hc]

theorem hasSub_strip (p s : List Char) (hp : p ≠ [])
    (hws : ∀ c ∈ p, isWs c = false) :
    hasSub p (strip s) = hasSub p s := by
  have hp' : p.reverse ≠ [] := by simpa using hp
  have hws' : ∀ c ∈ p.reverse, isWs c = false :=
    fun c hc => hws c (List.mem_reverse.mp hc)
  calc hasSub p (((s.dropWhile isWs).reverse.dropWhile isWs).reverse)
      = hasSub p.reverse.reverse (((s.dropWhile isWs).reverse.dropWhile isWs).reverse) := by
        rw [List.reverse_reverse]
    _ = hasSub p.reverse ((s.dropWhile isWs).reverse.dropWhile isWs) :=
        hasSub_reverse _ _
    _ = hasSub p.reverse (s.dropWhile isWs).reverse :=
        hasSub_dropWhile _ _ hp' hws'
    _ = hasSub p (s.dropWhile isWs) := hasSub_reverse _ _
    _ = hasSub p s := hasSub_dropWhile _ _ hp hws

theorem hasSub_self (p : List Char) : hasSub p p = true := by
  cases p with
  | nil => rfl
  | cons c rest =>
    show (beginsWith (c :: rest) (c :: rest) || hasSub (c :: rest) rest) = true
    rw [(beginsWith_iff _ _).mpr ⟨[], by simp⟩, Bool.true_or]

theorem hasSub_of_begins (q p s : List Char) (hq : beginsWith q p = true)
    (hp : hasSub p s = true) : hasSub q s = true := by
  rcases (beginsWith_iff q p).mp hq with ⟨t, rfl⟩
  rcases (hasSub_iff _ s).mp hp with ⟨a, b, rfl⟩
  exact (hasSub_iff q _).mpr ⟨a, t ++ b, by simp⟩

theorem strip_eq_nil (s : List Char) (h : ∀ c ∈ s, isWs c = true) :
    strip s = [] := by
  unfold strip
  have h1 : s.dropWhile isWs = [] :=
    List.dropWhile_eq_nil_iff.mpr (fun c hc => by simpa using h c hc)
  rw [h1]
  rfl

theorem lowerChar_ws (c : Char) (h : isWs c = true) : lowerChar c = c := by
  have h' : ((c = ' ' ∨ c = '\t') ∨ c = '\r') ∨ c = '\n' := by
    simpa [isWs, Char.isWhitespace] using h
  rcases h' with ((rfl | rfl) | rfl) | rfl <;> rfl

theorem find?_first {α : Type} (f : α → Bool) (x : α) (l₁ l₂ : List α)
    (h₁ : ∀ y ∈ l₁, f y = false) (hx : f x = true) :
    List.find? f (l₁ ++ x :: l₂) = some x := by
  induction l₁ with
  | nil =>
    rw [List.nil_append]
    exact List.find?_cons_of_pos l₂ hx
  | cons a l ih =>
    rw [List.cons_append,
      List.find?_cons_of_neg _ (by simp [h₁ a (List.mem_cons_self a l)])]
    exact ih (fun y hy => h₁ y (List.mem_cons_of_mem a hy))

/-- Every category produced by `run_classification_agent` lies in the
closed five-element vocabulary. -/
theorem classify_mem_categories (s : List Char) :
    run_classification_agent s ∈
      [chars "Garbage", chars "Road", chars "Water", chars "Streetlight",
        chars "General"] := by
  by_cases hs : s = []
  · subst hs; decide
  · simp only [run_classification_agent, if_neg hs]
    cases hf : classification_map.find?
        (fun kc => hasSub kc.1 (strip (s.map lowerChar))) with
    | some kc =>
      have h2 := List.mem_of_find?_eq_some hf
      show kc.2 ∈ [chars "Garbage", chars "Road", chars "Water",
        chars "Streetlight", chars "General"]
      simp only [classification_map, List.mem_cons, List.not_mem_nil, or_false] at h2
      rcases h2 with rfl | rfl | rfl | rfl | rfl | rfl | rfl | rfl | rfl | rfl
        | rfl | rfl | rfl | rfl | rfl | rfl <;> decide
    | none =>
      cases hg : standard_categories.find?
          (fun cat => cat.map lowerChar == strip (s.map lowerChar)) with
      | some cat =>
        have h2 := List.mem_of_find?_eq_some hg
        show cat ∈ [chars "Garbage", chars "Road", chars "Water",
          chars "Streetlight", chars "General"]
        simp only [standard_categories, List.mem_cons, List.not_mem_nil,
          or_false] at h2
        rcases h2 with rfl | rfl | rfl | rfl <;> decide
      | none =>
        show chars "General" ∈ [chars "Garbage", chars "Road", chars "Water",
          chars "Streetlight", chars "General"]
        decide

/-- C1: for every string whose trimmed, case-folded form contains a classifier
keyword, `run_classification_agent` returns the category of the first matching
keyword in the declaration order of `classification_map`; in particular
`classify "pothole on mg road" = "Road"`. -/
theorem classify_first_matching_keyword :
    (∀ (s kw cat : List Char) (l₁ l₂ : List (List Char × List Char)),
        classification_map = l₁ ++ (kw, cat) :: l₂ →
        hasSub kw (strip (s.map lowerChar)) = true →
        (∀ p ∈ l₁, hasSub p.1 (strip (s.map lowerChar)) = false) →
        run_classification_agent s = cat)
    ∧ run_classification_agent (chars "pothole on mg road") = chars "Road" := by
  constructor
  · intro s kw cat l₁ l₂ hsplit hmatch hbefore
    have hs : s ≠ [] := by
      rintro rfl
      have hmem : (kw, cat) ∈ classification_map := by
        rw [hsplit]
        exact List.mem_append_right _ (List.mem_cons_self _ _)
      have hkey : strip (List.map lowerChar []) = [] := rfl
      rw [hkey] at hmatch
      simp only [classification_map, List.mem_cons, List.not_mem_nil, or_false,
        Prod.mk.injEq] at hmem
      rcases hmem with ⟨rfl, -⟩ | ⟨rfl, -⟩ | ⟨rfl, -⟩ | ⟨rfl, -⟩ | ⟨rfl, -⟩
        | ⟨rfl, -⟩ | ⟨rfl, -⟩ | ⟨rfl, -⟩ | ⟨rfl, -⟩ | ⟨rfl, -⟩ | ⟨rfl, -⟩
        | ⟨rfl, -⟩ | ⟨rfl, -⟩ | ⟨rfl, -⟩ | ⟨rfl, -⟩ | ⟨rfl, -⟩ <;>
        exact absurd hmatch (by decide)
    have hfind : classification_map.find?
        (fun kc => hasSub kc.1 (strip (s.map lowerChar))) = some (kw, cat) := by
      rw [hsplit]
      exact find?_first _ _ _ _ hbefore hmatch
    simp only [run_classification_agent, if_neg hs, hfind]
  · decide

/-- Witness for C1: `"pothole on mg road"` matches keyword `"road"` (pair 5 of
the table), no Garbage-group keyword occurs before it, and the classifier
returns `"Road"`. -/
theorem classify_first_matching_keyword_witness :
    run_classification_agent (chars "pothole on mg road") = chars "Road" :=
  classify_first_matching_keyword.1 (chars "pothole on mg road") (chars "road")
    (chars "Road")
    [(chars "garbage", chars "Garbage"), (chars "trash", chars "Garbage"),
     (chars "waste", chars "Garbage"), (chars "dustbin", chars "Garbage")]
    [(chars "pothole", chars "Road"), (chars "street", chars "Road"),
     (chars "asphalt", chars "Road"), (chars "water", chars "Water"),
     (chars "leak", chars "Water"), (chars "pipe", chars "Water"),
     (chars "drainage", chars "Water"), (chars "streetlight", chars "Streetlight"),
     (chars "light", chars "Streetlight"), (chars "lamp", chars "Streetlight"),
     (chars "dark", chars "Streetlight")]
    (by decide) (by decide) (by decide)

/-- C4 (evaluation of the code at the failing input): routing the raw issue
type `"Rubbish near my house"` through classification and routing yields
`("General", "Municipal Corporation")`, not `("Garbage", "Sanitation Dept.")`
as the classifier docstring's `"Rubbish"` example and the spec promise. -/
theorem classify_and_route_rubbish_house :
    classify_and_route (chars "Rubbish near my house")
      = (chars "General", chars "Municipal Corporation") := by decide

/-- C5: `run_routing_agent` maps each of the five categories to its fixed
department and every other string to `"City Helpdesk"`; it is a total Lean
function, so it cannot fail on any input. -/
theorem routing_total_lookup :
    run_routing_agent (chars "Garbage") = chars "Sanitation Dept."
    ∧ run_routing_agent (chars "Road") = chars "Public Works Dept."
    ∧ run_routing_agent (chars "Water") = chars "Water Board"
    ∧ run_routing_agent (chars "Streetlight") = chars "Electricity Board"
    ∧ run_routing_agent (chars "General") = chars "Municipal Corporation"
    ∧ ∀ s : List Char,
        s ∉ [chars "Garbage", chars "Road", chars "Water", chars "Streetlight",
          chars "General"] →
        run_routing_agent s = chars "City Helpdesk" := by
  refine ⟨by decide, by decide, by decide, by decide, by decide, ?_⟩
  intro s hs
  unfold run_routing_agent
  cases hf : routing_map.find? (fun kv => kv.1 == s) with
  | none => rfl
  | some kv =>
    exfalso
    have h1 : kv.1 = s := by simpa using List.find?_some hf
    have h2 := List.mem_of_find?_eq_some hf
    simp only [routing_map, List.mem_cons, List.not_mem_nil, or_false] at h2
    rcases h2 with rfl | rfl | rfl | rfl | rfl <;>
      (apply hs; rw [← h1]; decide)

/-- Witness for C5: a string outside the closed category set routes to the
`"City Helpdesk"` sentinel. -/
theorem routing_total_lookup_witness :
    run_routing_agent (chars "Banana") = chars "City Helpdesk" :=
  routing_total_lookup.2.2.2.2.2 (chars "Banana") (by decide)

/-- C8: `run_classification_agent` is a total Lean function, and every
whitespace-only (in particular empty) input classifies as `"General"`. -/
theorem classify_whitespace_general (s : List Char)
    (h : ∀ c ∈ s, isWs c = true) :
    run_classification_agent s = chars "General" := by
  by_cases hs : s = []
  · subst hs; decide
  · have hws : ∀ c ∈ s.map lowerChar, isWs c = true := by
      intro c hc
      rcases List.mem_map.mp hc with ⟨c', hc', rfl⟩
      rw [lowerChar_ws c' (h c' hc')]
      exact h c' hc'
    have hkey : strip (s.map lowerChar) = [] := strip_eq_nil _ hws
    simp only [run_classification_agent, if_neg hs, hkey]
    decide

/-- Witness for C8: the three-space input classifies as `"General"`. -/
theorem classify_whitespace_general_witness :
    run_classification_agent (chars "   ") = chars "General" :=
  classify_whitespace_general (chars "   ") (by decide)

/-- C10: for every input the classified category lies in the closed
five-element set, so the department assigned by `classify_and_route` is one of
the five named departments and never the `"City Helpdesk"` sentinel. -/
theorem classify_and_route_never_helpdesk (s : List Char) :
    (classify_and_route s).2 ∈
      [chars "Sanitation Dept.", chars "Public Works Dept.", chars "Water Board",
        chars "Electricity Board", chars "Municipal Corporation"]
    ∧ (classify_and_route s).2 ≠ chars "City Helpdesk" := by
  have h := classify_mem_categories s
  simp only [List.mem_cons, List.not_mem_nil, or_false] at h
  show run_routing_agent (run_classification_agent s) ∈ _
    ∧ run_routing_agent (run_classification_agent s) ≠ _
  rcases h with h | h | h | h | h <;> rw [h] <;> exact ⟨by decide, by decide⟩

/-- C3 counterexample: with no backend configured, the chat endpoint's
fallback classifies `"sadak kharab hai"` (Hindi, no English keyword) as
`"General"`, not `"Road"` as the claim states. -/
theorem chat_sadak_counterexample :
    (chat_endpoint (chars "sadak kharab hai") BackendOutcome.noBackend).extractedData
      = some ⟨some (chars "General"), some (chars "sadak kharab hai"), some []⟩
    ∧ chars "General" ≠ chars "Road" := by decide

/-- C3 amended: with no backend configured, `"sadak kharab hai"` yields a
non-empty reply, category `"General"`, the verbatim message as description,
and the empty string as location. -/
theorem chat_sadak_amended :
    (chat_endpoint (chars "sadak kharab hai") BackendOutcome.noBackend).assistantReply ≠ []
    ∧ (chat_endpoint (chars "sadak kharab hai") BackendOutcome.noBackend).extractedData
      = some ⟨some (chars "General"), some (chars "sadak kharab hai"), some []⟩ := by
  decide

/-- C6 counterexample: the reply on a parse failure is the cleaned text, not
the returned text verbatim — surrounding whitespace (and code fences) are
stripped before it is stored in `assistantReply`. -/
theorem chat_parse_failure_counterexample :
    (chat_endpoint (chars "hi")
        (BackendOutcome.success (chars " hello ") none)).assistantReply
      = chars "hello"
    ∧ chars "hello" ≠ chars " hello " := by decide

/-- C6 amended: when the AI call succeeds but its payload does not parse as
JSON, the endpoint replies with the code-fence-stripped, whitespace-trimmed
returned text, sets `description` to the original message, and leaves
`issue_type` and `location_text` unset. -/
theorem chat_parse_failure_amended (message text : List Char) :
    chat_endpoint message (BackendOutcome.success text none)
      = { assistantReply := cleanResponse text,
          extractedData := some ⟨none, some message, none⟩ } := rfl

/-- C7 counterexample: with no API key configured, `run_vision_agent` returns
`None` (no result), not the fixed rejection dictionary. -/
theorem vision_no_key_counterexample :
    run_vision_agent none VisionOutcome.fetchError = none
    ∧ (none : Option VisionResult) ≠ some visionFallback := by decide

/-- C7 amended: with a credential configured, every failure mode (fetch,
decode, backend, parse) yields the fixed rejection dictionary; with the
credential absent the agent instead returns `None`, which the
`/analyze-image` endpoint surfaces as an HTTP 500. -/
theorem vision_failure_amended (key : List Char) (out : VisionOutcome)
    (h : out.isFailure = true) :
    run_vision_agent (some key) out = some visionFallback
    ∧ run_vision_agent none out = none := by
  refine ⟨?_, rfl⟩
  cases out with
  | success d => simp [VisionOutcome.isFailure] at h
  | fetchError => rfl
  | decodeError => rfl
  | backendError => rfl
  | parseError => rfl

/-- Witness for C7 (amended): a fetch error with a key present yields the
fixed rejection; without a key the call yields `None`. -/
theorem vision_failure_amended_witness :
    run_vision_agent (some (chars "k")) VisionOutcome.fetchError = some visionFallback
    ∧ run_vision_agent none VisionOutcome.fetchError = none :=
  vision_failure_amended (chars "k") VisionOutcome.fetchError (by decide)

/-- C9 counterexample: on a successful AI call returning an empty (hence
unparseable) payload, the reply is the empty string — `reply` is not always
non-empty. -/
theorem chat_empty_reply_counterexample :
    (chat_endpoint (chars "water leaking")
        (BackendOutcome.success [] none)).assistantReply = [] := by decide

/-- C9 amended: on the no-backend and backend-failure outcomes the reply is
always non-empty (the success path may produce an empty reply when the
payload's text or its `assistantReply` field is empty). -/
theorem chat_fallback_reply_nonempty (message : List Char) (out : BackendOutcome)
    (h : out = BackendOutcome.noBackend ∨ out = BackendOutcome.failure) :
    (chat_endpoint message out).assistantReply ≠ [] := by
  have hfb : (fallback_response message).assistantReply ≠ [] := by
    intro hcontra
    simp only [fallback_response] at hcontra
    rcases List.append_eq_nil.mp hcontra with ⟨ha, -⟩
    rcases List.append_eq_nil.mp ha with ⟨hb, -⟩
    exact absurd hb (by decide)
  rcases h with rfl | rfl
  · exact hfb
  · exact hfb

/-- Witness for C9 (amended): with no backend, the reply to `"hi"` is
non-empty. -/
theorem chat_fallback_reply_nonempty_witness :
    (chat_endpoint (chars "hi") BackendOutcome.noBackend).assistantReply ≠ [] :=
  chat_fallback_reply_nonempty (chars "hi") BackendOutcome.noBackend (Or.inl rfl)

theorem find?_cons_eq {α : Type} (p : α → Bool) (a : α) (l : List α) :
    List.find? p (a :: l) = if p a = true then some a else List.find? p l := by
  by_cases h : p a = true
  · rw [if_pos h, List.find?_cons_of_pos _ h]
  · rw [if_neg h, List.find?_cons_of_neg _ h]

set_option maxHeartbeats 2000000 in
/-- The chat fallback and the classifier agree on every message that avoids
(as a substring of the lower-cased message) the keywords on which their two
tables differ: `waste`, `dustbin`, `street`, `asphalt`, `drainage` (classifier
only) and `rubbish` (fallback only). -/
theorem fallback_classify_agree (message : List Char)
    (h1 : hasSub (chars "waste") (message.map lowerChar) = false)
    (h2 : hasSub (chars "dustbin") (message.map lowerChar) = false)
    (h3 : hasSub (chars "street") (message.map lowerChar) = false)
    (h4 : hasSub (chars "asphalt") (message.map lowerChar) = false)
    (h5 : hasSub (chars "drainage") (message.map lowerChar) = false)
    (h6 : hasSub (chars "rubbish") (message.map lowerChar) = false) :
    fallback_issue_type message = run_classification_agent message := by
  by_cases hm : message = []
  · subst hm; decide
  · have f_waste : hasSub (chars "waste") (strip (message.map lowerChar)) = false := by
      rw [hasSub_strip _ _ (by decide) (by decide)]; exact h1
    have f_dustbin : hasSub (chars "dustbin") (strip (message.map lowerChar)) = false := by
      rw [hasSub_strip _ _ (by decide) (by decide)]; exact h2
    have f_street : hasSub (chars "street") (strip (message.map lowerChar)) = false := by
      rw [hasSub_strip _ _ (by decide) (by decide)]; exact h3
    have f_asphalt : hasSub (chars "asphalt") (strip (message.map lowerChar)) = false := by
      rw [hasSub_strip _ _ (by decide) (by decide)]; exact h4
    have f_drainage : hasSub (chars "drainage") (strip (message.map lowerChar)) = false := by
      rw [hasSub_strip _ _ (by decide) (by decide)]; exact h5
    have h_sl : hasSub (chars "streetlight") (message.map lowerChar) = false := by
      cases hx : hasSub (chars "streetlight") (message.map lowerChar) with
      | false => rfl
      | true =>
        exact absurd
          (hasSub_of_begins (chars "street") (chars "streetlight") _ (by decide) hx)
          (by simp [h3])
    have f_sl : hasSub (chars "streetlight") (strip (message.map lowerChar)) = false := by
      rw [hasSub_strip _ _ (by decide) (by decide)]; exact h_sl
    have e_g := hasSub_strip (chars "garbage") (message.map lowerChar) (by decide) (by decide)
    have e_t := hasSub_strip (chars "trash") (message.map lowerChar) (by decide) (by decide)
    have e_r := hasSub_strip (chars "road") (message.map lowerChar) (by decide) (by decide)
    have e_p := hasSub_strip (chars "pothole") (message.map lowerChar) (by decide) (by decide)
    have e_w := hasSub_strip (chars "water") (message.map lowerChar) (by decide) (by decide)
    have e_l := hasSub_strip (chars "leak") (message.map lowerChar) (by decide) (by decide)
    have e_pi := hasSub_strip (chars "pipe") (message.map lowerChar) (by decide) (by decide)
    have e_li := hasSub_strip (chars "light") (message.map lowerChar) (by decide) (by decide)
    have e_la := hasSub_strip (chars "lamp") (message.map lowerChar) (by decide) (by decide)
    have e_d := hasSub_strip (chars "dark") (message.map lowerChar) (by decide) (by decide)
    have n1 : hasSub (chars "garbage") (message.map lowerChar) = false →
        (chars "garbage" == strip (message.map lowerChar)) = false := by
      intro hg
      rw [beq_eq_false_iff_ne]
      intro heq
      have hx : hasSub (chars "garbage") (strip (message.map lowerChar)) = true := by
        rw [← heq]; exact hasSub_self _
      rw [e_g, hg] at hx
      exact absurd hx (by decide)
    have n2 : hasSub (chars "road") (message.map lowerChar) = false →
        (chars "road" == strip (message.map lowerChar)) = false := by
      intro hg
      rw [beq_eq_false_iff_ne]
      intro heq
      have hx : hasSub (chars "road") (strip (message.map lowerChar)) = true := by
        rw [← heq]; exact hasSub_self _
      rw [e_r, hg] at hx
      exact absurd hx (by decide)
    have n3 : hasSub (chars "water") (message.map lowerChar) = false →
        (chars "water" == strip (message.map lowerChar)) = false := by
      intro hg
      rw [beq_eq_false_iff_ne]
      intro heq
      have hx : hasSub (chars "water") (strip (message.map lowerChar)) = true := by
        rw [← heq]; exact hasSub_self _
      rw [e_w, hg] at hx
      exact absurd hx (by decide)
    have n4 : (chars "streetlight" == strip (message.map lowerChar)) = false := by
      rw [beq_eq_false_iff_ne]
      intro heq
      have hx : hasSub (chars "streetlight") (strip (message.map lowerChar)) = true := by
        rw [← heq]; exact hasSub_self _
      rw [f_sl] at hx
      exact absurd hx (by decide)
    have mg : (chars "Garbage").map lowerChar = chars "garbage" := by decide
    have mr : (chars "Road").map lowerChar = chars "road" := by decide
    have mw : (chars "Water").map lowerChar = chars "water" := by decide
    have ms : (chars "Streetlight").map lowerChar = chars "streetlight" := by decide
    simp only [fallback_issue_type, run_classification_agent, if_neg hm,
      classification_map, standard_categories, find?_cons_eq, List.find?_nil,
      e_g, e_t, e_r, e_p, e_w, e_l, e_pi, e_li, e_la, e_d,
      f_waste, f_dustbin, f_street, f_asphalt, f_drainage, f_sl, h6,
      mg, mr, mw, ms, n4, Bool.or_false, Bool.false_or]
    cases hA : hasSub (chars "garbage") (List.map lowerChar message) with
    | true => simp
    | false =>
    cases hB : hasSub (chars "trash") (List.map lowerChar message) with
    | true => simp
    | false =>
    cases hC : hasSub (chars "road") (List.map lowerChar message) with
    | true => simp
    | false =>
    cases hD : hasSub (chars "pothole") (List.map lowerChar message) with
    | true => simp
    | false =>
    cases hE : hasSub (chars "water") (List.map lowerChar message) with
    | true => simp
    | false =>
    cases hF : hasSub (chars "leak") (List.map lowerChar message) with
    | true => simp
    | false =>
    cases hG : hasSub (chars "pipe") (List.map lowerChar message) with
    | true => simp
    | false =>
    cases hH : hasSub (chars "light") (List.map lowerChar message) with
    | true => simp
    | false =>
    cases hI : hasSub (chars "lamp") (List.map lowerChar message) with
    | true => simp
    | false =>
    cases hJ : hasSub (chars "dark") (List.map lowerChar message) with
    | true => simp
    | false => simp [n1 hA, n2 hC, n3 hE]

/-- C2 counterexample: on the message `"rubbish"` the chat fallback assigns
`"Garbage"` while `run_classification_agent` returns `"General"` — the two
keyword tests are not the same. -/
theorem chat_fallback_differs_from_classifier :
    fallback_issue_type (chars "rubbish") ≠ run_classification_agent (chars "rubbish")
    ∧ fallback_issue_type (chars "rubbish") = chars "Garbage"
    ∧ run_classification_agent (chars "rubbish") = chars "General"
    ∧ (chat_endpoint (chars "rubbish") BackendOutcome.noBackend).extractedData
      = some ⟨some (chars "Garbage"), some (chars "rubbish"), some []⟩ := by decide

/-- C2 amended: the deterministic fallback of the `/chat` endpoint assigns
the same category as the Classifier on every message avoiding the keywords on
which the two tables differ (`waste`, `dustbin`, `street`, `asphalt`,
`drainage`, `rubbish`); on messages containing one of those, the two can
disagree (see the counterexample). -/
theorem chat_fallback_category_eq_classifier (message : List Char)
    (h1 : hasSub (chars "waste") (message.map lowerChar) = false)
    (h2 : hasSub (chars "dustbin") (message.map lowerChar) = false)
    (h3 : hasSub (chars "street") (message.map lowerChar) = false)
    (h4 : hasSub (chars "asphalt") (message.map lowerChar) = false)
    (h5 : hasSub (chars "drainage") (message.map lowerChar) = false)
    (h6 : hasSub (chars "rubbish") (message.map lowerChar) = false) :
    (chat_endpoint message BackendOutcome.noBackend).extractedData
      = some ⟨some (run_classification_agent message), some message, some []⟩ := by
  show (fallback_response message).extractedData = _
  simp only [fallback_response]
  rw [fallback_classify_agree message h1 h2 h3 h4 h5 h6]

/-- Witness for C2 (amended): on `"big pothole"` the fallback and the
classifier agree (both `"Road"`). -/
theorem chat_fallback_category_eq_classifier_witness :
    (chat_endpoint (chars "big pothole") BackendOutcome.noBackend).extractedData
      = some ⟨some (run_classification_agent (chars "big pothole")),
          some (chars "big pothole"), some []⟩ :=
  chat_fallback_category_eq_classifier (chars "big pothole")
    (by decide) (by decide) (by decide) (by decide) (by decide) (by decide)

end CityOps
